import Mathlib

set_option maxRecDepth 40000
set_option maxHeartbeats 2000000

/-!
Shallow embedding of `src/standalone.py`, the standalone SIP signaling core of
the OpenSIPS AI Voice Connector: the `AsyncSIPServerProtocol` connection
handler (`data_received`, `create_response`) and the tag generator
`generate_unique_string`.

External collaborators (the raw SIP message grammar parser, the SDP grammar
parser, the `Call` object from `call.py`, and the configuration loader from
`config.py` — none of which are under `src/`) are modelled from the spec as
oracles/parameters, per §1 and §6 of the specification.

Python string operations used by the source (`bytes.split`, `str.split`,
`len`, `str.startswith`, `"".join`) are embedded as executable Lean
functions over `String`/`List Char`; `len` on a Python `str` counts code
points, which matches `String.length`.
-/

namespace Standalone

/-- Modelled from the spec: the advertised IP, loaded by the external
configuration collaborator (`config.py` is not under `src/`); the source's
default value is `"0.0.0.0"` (`mi_cfg.get("ip", "IP", "0.0.0.0")`). -/
def ADV_IP : String := "0.0.0.0"

/-- Python's `string.ascii_letters + string.digits`: the alphabet used by
`generate_unique_string` (line 209 of the source). -/
def tagChars : List Char :=
  "abcdefghijklmnopqrstuvwxyzABCDEFGHIJKLMNOPQRSTUVWXYZ0123456789".data

/-- Embedding of `generate_unique_string(length=8)` (source lines 208-211):
`''.join(secrets.choice(characters) for _ in range(length))`.  The
cryptographically random `secrets.choice` is modelled by an oracle `choice`
giving the chosen alphabet index (among the 62 characters) per position. -/
def generate_unique_string (choice : Nat → Fin 62) (length : Nat) : String :=
  String.mk ((List.range length).map
    (fun i => tagChars.get ⟨(choice i).val,
      Nat.lt_of_lt_of_le (choice i).isLt (by decide)⟩))

/-- The first `Via` header of a parsed request, as the external SIP message
grammar parser presents it to the source: `headers.get("Via")[0]` is a dict
with keys `type`, `address` (a tuple of strings) and `branch`. -/
structure Via where
  type : String
  address : List String
  branch : String
deriving Repr, DecidableEq

/-- Structured view of a parsed SIP request, holding exactly the fields of
`SIPMessage` that `data_received`/`create_response` read: the method and the
header values `Via` (first entry), `To` (raw), `From` (raw), `Call-ID`,
`CSeq` (`check` and `method` parts).  The message grammar parser itself is an
external collaborator (spec §1, §6). -/
structure SIPRequest where
  method : String
  via : Via
  toRaw : String
  fromRaw : String
  callID : String
  cseqCheck : String
  cseqMethod : String
deriving Repr, DecidableEq

/-- Modelled from the spec: the external `Call` collaborator (`call.py` is
not under `src/`): `create(dialogTag, sdpOffer, aiProfile) -> Call | throws`;
`Call.getBody() -> sdpAnswerText`. -/
structure Call where
  body : String
deriving Repr, DecidableEq

/-- Modelled from the spec: `Call.getBody() -> sdpAnswerText`. -/
def Call.get_body (c : Call) : String := c.body

/-- The per-connection state of `AsyncSIPServerProtocol`: the generated tag
`self.did` and the `self.currentCall` handle (source lines 51-55). -/
structure ConnState where
  did : String
  currentCall : Option Call
deriving Repr, DecidableEq

/-- Embedding of `AsyncSIPServerProtocol.__init__` (source lines 51-55):
`self.did = generate_unique_string()` with the default length 8, and
`self.currentCall = None`. -/
def protocol_init (choice : Nat → Fin 62) : ConnState :=
  { did := generate_unique_string choice 8, currentCall := none }

/-- How a single `data_received` call ends: normally, by closing the
transport (header parse failure, source lines 71-74), or with an uncaught
Python exception escaping `data_received`. -/
inductive Outcome where
  | ok : Outcome
  | connectionClosed : Outcome
  | uncaughtException (description : String) : Outcome
deriving Repr, DecidableEq

/-- Result of one `data_received` call: the connection state afterwards, the
list of strings passed to `self.transport.write` (in order, before UTF-8
encoding), and how the call ended. -/
structure StepResult where
  state : ConnState
  writes : List String
  outcome : Outcome
deriving Repr, DecidableEq

/-- Strips `p` from the front of `s`, returning the rest, or `none` when `p`
is not a prefix of `s`. -/
def strip_prefix_chars : List Char → List Char → Option (List Char)
  | [], s => some s
  | _ :: _, [] => none
  | p :: ps, c :: cs => if p = c then strip_prefix_chars ps cs else none

/-- Python's `s.split(sep)` on character lists for a fixed non-empty `sep`:
scan left to right, cut at every non-overlapping occurrence of `sep`.  `fuel`
bounds the recursion; with `fuel ≥ s.length` it never runs out. -/
def py_split_chars (sep : List Char) : Nat → List Char → List (List Char)
  | _, [] => [[]]
  | 0, s => [s]
  | fuel + 1, c :: rest =>
    match strip_prefix_chars sep (c :: rest) with
    | some r => [] :: py_split_chars sep fuel r
    | none =>
      match py_split_chars sep fuel rest with
      | h :: t => (c :: h) :: t
      | [] => [[c]]

/-- Python's `s.split(sep)` for strings (non-empty `sep`). -/
def py_split (sep : String) (s : String) : List String :=
  (py_split_chars sep.data s.data.length s.data).map String.mk

/-- Embedding of line 83 of the source:
`headers, body = data.split(b"\r\n\r\n")`.  Python's unqualified `split`
splits at EVERY occurrence of the separator; the 2-tuple unpacking raises
`ValueError` unless the split yields exactly two parts, which this embedding
renders as `none`. -/
def split_headers_body (data : String) : Option (String × String) :=
  match py_split "\r\n\r\n" data with
  | [headers, body] => some (headers, body)
  | _ => none

/-- Python's `line.startswith(p)`. -/
def py_startswith (p : String) (line : String) : Bool :=
  (strip_prefix_chars p.data line.data).isSome

/-- Embedding of lines 87-88 of the source: remove every line starting with
`a=rtcp:` from the SDP text, rejoining with `"\n"` (the parser workaround). -/
def strip_rtcp (oldSDP : String) : String :=
  String.intercalate "\n"
    ((py_split "\n" oldSDP).filter (fun line => !(py_startswith "a=rtcp:" line)))

/-- Embedding of `create_response` (source lines 137-153) as the list of
response lines before joining; the joined wire form is `create_response`.
Line by line:
`SIP/2.0 <status_line>`;
`Via:` from the request's first Via: `type`, a space, the address parts
joined with `':'`, then the literal `':branch='` and the branch value;
`To:` the request's raw To with `';tag='` and the connection tag appended;
`From:`/`Call-ID:` echoed raw; a fixed `Contact:`; `CSeq:` echoed; a fixed
`Allow:`; `Content-Length:` from Python's `len(body)` (code points); an
empty line; the body.  The Python default `body=''` is passed explicitly by
every caller here. -/
def create_response_lines (did : String) (request : SIPRequest)
    (status_line : String) (body : String) : List String :=
  [ "SIP/2.0 " ++ status_line,
    "Via: " ++ request.via.type ++ " " ++ String.intercalate ":" request.via.address
      ++ ":branch=" ++ request.via.branch,
    "To: " ++ request.toRaw ++ ";tag=" ++ did,
    "From: " ++ request.fromRaw,
    "Call-ID: " ++ request.callID,
    "Contact:" ++ (" <sip:ai@" ++ ADV_IP ++ ";transport=tcp>"),
    "CSeq: " ++ request.cseqCheck ++ " " ++ request.cseqMethod,
    "Allow: INVITE, ACK, CANCEL, OPTIONS, BYE",
    "Content-Length: " ++ toString body.length,
    "",
    body ]

/-- Embedding of `create_response` (source lines 137-153): the response lines
joined with `"\r\n"`. -/
def create_response (did : String) (request : SIPRequest)
    (status_line : String) (body : String) : String :=
  String.intercalate "\r\n" (create_response_lines did request status_line body)

/-- Embedding of `data_received` (source lines 63-135).

Oracles for the external collaborators:
`message` is the outcome of `SIPMessage(data)` — `none` when the external
header grammar parser throws (then the source closes the transport, lines
71-74); `sdp_parse_ok` is whether `SessionDescription.parse` (the external
SDP grammar parser) accepts the stripped SDP text; `call_create` is the
outcome of the `try:` block's call-creation attempt
`Call(self.did, sdp, get_ai_flavor(params))` — modelled from the spec's
Call-collaborator contract, `none` when it throws.  (In the concrete source
that attempt always throws, because `params` is an undefined name — a
NameError caught by the `except` branch; the oracle keeps both branches.)

Control flow mirrored from the source:
INVITE: write `100 Trying`, split `data` at every `"\r\n\r\n"` (a
`ValueError` escapes uncaught unless exactly two parts result), strip
`a=rtcp:` lines, parse the SDP (a parse failure escapes uncaught — the call
is OUTSIDE the `try:` block), then try call creation: on success assign
`self.currentCall` and answer `200 OK` with the call's body, on any
exception answer `500 Internal Server Error`; OPTIONS and BYE: answer
`200 OK`; ACK: no branch assigns `response`, so the final
`self.transport.write(response…)` on line 134 raises `UnboundLocalError`;
any other method: answer `501 Not Implemented`. -/
def data_received (sdp_parse_ok : String → Bool) (call_create : Option Call)
    (st : ConnState) (data : String) (message : Option SIPRequest) : StepResult :=
  match message with
  | none => { state := st, writes := [], outcome := .connectionClosed }
  | some message =>
    if message.method = "INVITE" then
      let trying := create_response st.did message "100 Trying" ""
      match split_headers_body data with
      | none =>
        { state := st, writes := [trying],
          outcome := .uncaughtException "ValueError: unpacking data.split" }
      | some (_, body) =>
        let sdp_str := strip_rtcp body
        if sdp_parse_ok sdp_str then
          match call_create with
          | some call =>
            { state := { st with currentCall := some call },
              writes := [trying, create_response st.did message "200 OK" call.get_body],
              outcome := .ok }
          | none =>
            { state := st,
              writes := [trying,
                create_response st.did message "500 Internal Server Error" ""],
              outcome := .ok }
        else
          { state := st, writes := [trying],
            outcome := .uncaughtException "SdpParseError" }
    else if message.method = "OPTIONS" then
      { state := st, writes := [create_response st.did message "200 OK" ""],
        outcome := .ok }
    else if message.method = "BYE" then
      { state := st, writes := [create_response st.did message "200 OK" ""],
        outcome := .ok }
    else if message.method = "ACK" then
      { state := st, writes := [],
        outcome := .uncaughtException "UnboundLocalError: response" }
    else
      { state := st, writes := [create_response st.did message "501 Not Implemented" ""],
        outcome := .ok }

/-- Re-parse of a single generated header line: when the line starts with
`Content-Length: `, the header value (the rest of the line) as text,
otherwise `none`. -/
def parse_content_length_line (line : String) : Option String :=
  (strip_prefix_chars "Content-Length: ".data line.data).map String.mk

/-- Re-parse of a generated response's header block (the response lines):
the value of the first `Content-Length` header found. -/
def reported_content_length (lines : List String) : Option String :=
  lines.findSome? parse_content_length_line

/-! Concrete fixtures used by the witnesses and counterexamples. -/

/-- A concrete parsed INVITE request (Call-ID `x-call-1`). -/
def req_x : SIPRequest :=
  { method := "INVITE",
    via := { type := "SIP/2.0/TCP", address := ["1.2.3.4", "5060"], branch := "z9hG4bK1" },
    toRaw := "<sip:ai@9.8.7.6>",
    fromRaw := "<sip:alice@1.2.3.4>;tag=f1",
    callID := "x-call-1",
    cseqCheck := "1",
    cseqMethod := "INVITE" }

/-- A second concrete INVITE with a different Call-ID, `y-call-2`. -/
def req_y : SIPRequest := { req_x with callID := "y-call-2" }

/-- An INVITE whose To header already carries a remote-supplied tag. -/
def req_tagged : SIPRequest := { req_x with toRaw := "<sip:ai@9.8.7.6>;tag=remote1" }

/-- A concrete ACK request. -/
def req_ack : SIPRequest := { req_x with method := "ACK", cseqMethod := "ACK" }

/-- A concrete BYE request. -/
def req_bye : SIPRequest := { req_x with method := "BYE", cseqMethod := "BYE" }

/-- A concrete OPTIONS request. -/
def req_opt : SIPRequest := { req_x with method := "OPTIONS", cseqMethod := "OPTIONS" }

/-! Helper lemmas. -/

theorem strip_prefix_chars_append (p r : List Char) :
    strip_prefix_chars p (p ++ r) = some r := by
  induction p with
  | nil => rfl
  | cons a as ih => simp [strip_prefix_chars, ih]

theorem strip_prefix_chars_none_of_take (n : Nat) (p s : List Char)
    (h : strip_prefix_chars (p.take n) (s.take n) = none) :
    strip_prefix_chars p s = none := by
  induction n generalizing p s with
  | zero => simp [strip_prefix_chars] at h
  | succ n ih =>
    cases p with
    | nil => simp [strip_prefix_chars] at h
    | cons a as =>
      cases s with
      | nil => rfl
      | cons b bs =>
        simp only [List.take_succ_cons, strip_prefix_chars] at h ⊢
        by_cases hab : a = b
        · rw [if_pos hab] at h ⊢
          exact ih as bs h
        · rw [if_neg hab]

theorem parse_cl_none_of_take (s : String) (k : Nat)
    (h : strip_prefix_chars ("Content-Length: ".data.take k) (s.data.take k) = none) :
    parse_content_length_line s = none := by
  unfold parse_content_length_line
  rw [strip_prefix_chars_none_of_take k _ _ h]
  rfl

theorem parse_cl_line_of_value (v : String) :
    parse_content_length_line ("Content-Length: " ++ v) = some v := by
  unfold parse_content_length_line
  rw [String.data_append, strip_prefix_chars_append]
  rfl

theorem utf8Size_one_of_ascii (c : Char) (h : c.toNat < 128) : c.utf8Size = 1 := by
  simp only [Char.utf8Size]
  split
  · rfl
  · rename_i hc
    exfalso
    apply hc
    rw [UInt32.le_def, BitVec.le_def]
    show c.val.toBitVec.toNat ≤ 127
    have h' : c.val.toBitVec.toNat < 128 := h
    omega

theorem utf8Len_eq_length_of_ascii (l : List Char)
    (h : ∀ c ∈ l, c.toNat < 128) : String.utf8Len l = l.length := by
  induction l with
  | nil => rfl
  | cons c cs ih =>
    rw [String.utf8Len_cons, utf8Size_one_of_ascii c (h c (List.mem_cons_self c cs)),
      List.length_cons, ih (fun x hx => h x (List.mem_cons_of_mem c hx))]

theorem utf8ByteSize_eq_length_of_ascii (s : String)
    (h : ∀ c ∈ s.data, c.toNat < 128) : s.utf8ByteSize = s.length := by
  obtain ⟨l⟩ := s
  exact utf8Len_eq_length_of_ascii l h

theorem tagChars_all_alphanum : ∀ c ∈ tagChars, c.isAlphanum = true := by decide

theorem generate_unique_string_data (choice : Nat → Fin 62) (n : Nat) :
    (generate_unique_string choice n).data
      = (List.range n).map (fun i => tagChars.get ⟨(choice i).val,
          Nat.lt_of_lt_of_le (choice i).isLt (by decide)⟩) := rfl

theorem data_received_preserves_did (sdp_parse_ok : String → Bool)
    (call_create : Option Call) (st : ConnState) (data : String)
    (msg : Option SIPRequest) :
    (data_received sdp_parse_ok call_create st data msg).state.did = st.did := by
  cases msg with
  | none => rfl
  | some r =>
    simp only [data_received]
    split
    · split
      · rfl
      · split
        · split <;> rfl
        · rfl
    · split
      · rfl
      · split
        · rfl
        · split <;> rfl

/-! Claim theorems. -/

/-- C1: for every valid INVITE request (header block parses, exactly one
blank-line boundary in the raw data, SDP parses), `data_received` writes
exactly one `100 Trying` followed by exactly one final response: `200 OK`
carrying the Call's (non-empty) body when call creation succeeds, and
`500 Internal Server Error` when it fails — never zero final responses and
never more than one. -/
theorem c1_invite_one_trying_one_final (sdp_parse_ok : String → Bool)
    (call_create : Option Call) (st : ConnState) (data : String)
    (req : SIPRequest) (hd bd : String)
    (hm : req.method = "INVITE")
    (hsplit : split_headers_body data = some (hd, bd))
    (hsdp : sdp_parse_ok (strip_rtcp bd) = true)
    (hbody : ∀ c, call_create = some c → c.get_body ≠ "") :
    let r := data_received sdp_parse_ok call_create st data (some req)
    r.writes.length = 2
    ∧ r.writes.get? 0 = some (create_response st.did req "100 Trying" "")
    ∧ (match call_create with
       | some c =>
          r.writes.get? 1 = some (create_response st.did req "200 OK" c.get_body)
          ∧ c.get_body ≠ ""
       | none =>
          r.writes.get? 1
            = some (create_response st.did req "500 Internal Server Error" "")) := by
  cases call_create with
  | some c =>
    simp only [data_received, hm, hsplit, hsdp, if_pos rfl]
    exact ⟨rfl, rfl, rfl, hbody c rfl⟩
  | none =>
    simp only [data_received, hm, hsplit, hsdp, if_pos rfl]
    exact ⟨rfl, rfl, rfl⟩

/-- Witness for C1 at a concrete INVITE with a successful call creation. -/
theorem c1_witness :
    (req_x.method = "INVITE"
     ∧ split_headers_body "H\r\n\r\nv=0" = some ("H", "v=0")
     ∧ (fun _ : String => true) (strip_rtcp "v=0") = true
     ∧ (∀ c, (some ⟨"v=0a"⟩ : Option Call) = some c → c.get_body ≠ ""))
    ∧ (let r := data_received (fun _ => true) (some ⟨"v=0a"⟩)
         ⟨"t1", none⟩ "H\r\n\r\nv=0" (some req_x)
       r.writes.length = 2
       ∧ r.writes.get? 0
           = some (create_response (ConnState.mk "t1" none).did req_x "100 Trying" "")
       ∧ (match (some ⟨"v=0a"⟩ : Option Call) with
          | some c =>
             r.writes.get? 1
               = some (create_response (ConnState.mk "t1" none).did req_x "200 OK" c.get_body)
             ∧ c.get_body ≠ ""
          | none =>
             r.writes.get? 1
               = some (create_response (ConnState.mk "t1" none).did req_x
                   "500 Internal Server Error" ""))) :=
  ⟨⟨rfl, by decide, rfl, by intro c h; cases h; decide⟩,
   c1_invite_one_trying_one_final (fun _ => true) (some ⟨"v=0a"⟩) ⟨"t1", none⟩
     "H\r\n\r\nv=0" req_x "H" "v=0" rfl (by decide) rfl
     (by intro c h; cases h; decide)⟩

/-- C2: refuted as stated — per-request errors are NOT all converted to SIP
responses.  At a parsed ACK request, `data_received` raises an uncaught
`UnboundLocalError` (no branch assigned `response` before line 134 writes
it), writing nothing; and at a parsed INVITE whose body fails SDP parsing,
the parse exception escapes uncaught because `SessionDescription.parse` is
outside the `try:` block. -/
theorem c2_per_request_errors_escape :
    (data_received (fun _ => true) none ⟨"t1", none⟩ "A\r\n\r\nB" (some req_ack)).outcome
      = Outcome.uncaughtException "UnboundLocalError: response"
    ∧ (data_received (fun _ => true) none ⟨"t1", none⟩ "A\r\n\r\nB" (some req_ack)).writes = []
    ∧ (data_received (fun _ => false) none ⟨"t1", none⟩ "A\r\n\r\nB" (some req_x)).outcome
      = Outcome.uncaughtException "SdpParseError" := by
  refine ⟨rfl, rfl, ?_⟩
  decide

/-- C3: refuted as stated — the BYE branch only replies `200 OK` (source
lines 123-125, with teardown left as a TODO): the Call handle is still held
afterwards, no dialog state is removed, and a second BYE for the same
Call-ID receives the identical duplicate `200 OK` instead of a
DialogNotFoundError-style answer. -/
theorem c3_bye_no_teardown :
    (data_received (fun _ => true) none ⟨"t1", some ⟨"v=0a"⟩⟩ "B\r\n\r\nx" (some req_bye)).writes
      = [create_response "t1" req_bye "200 OK" ""]
    ∧ (data_received (fun _ => true) none ⟨"t1", some ⟨"v=0a"⟩⟩ "B\r\n\r\nx" (some req_bye)).state
      = ⟨"t1", some ⟨"v=0a"⟩⟩
    ∧ (data_received (fun _ => true) none ⟨"t1", some ⟨"v=0a"⟩⟩ "B\r\n\r\nx"
        (some req_bye)).state.currentCall = some ⟨"v=0a"⟩
    ∧ (data_received (fun _ => true) none
        (data_received (fun _ => true) none ⟨"t1", some ⟨"v=0a"⟩⟩ "B\r\n\r\nx"
          (some req_bye)).state
        "B\r\n\r\nx" (some req_bye)).writes
      = [create_response "t1" req_bye "200 OK" ""] := by
  exact ⟨rfl, rfl, rfl, rfl⟩

/-- C4: refuted as stated — when the INVITE body fails SDP parsing, no
`500 Internal Server Error` is written: the only write is the already-sent
`100 Trying`, and the parse exception escapes `data_received` uncaught. -/
theorem c4_sdp_parse_failure_uncaught :
    (data_received (fun _ => false) none ⟨"t1", none⟩ "I\r\n\r\nbadsdp" (some req_x)).writes
      = [create_response "t1" req_x "100 Trying" ""]
    ∧ (data_received (fun _ => false) none ⟨"t1", none⟩ "I\r\n\r\nbadsdp" (some req_x)).outcome
      = Outcome.uncaughtException "SdpParseError"
    ∧ ¬ create_response "t1" req_x "500 Internal Server Error" ""
        ∈ (data_received (fun _ => false) none ⟨"t1", none⟩ "I\r\n\r\nbadsdp"
            (some req_x)).writes := by
  refine ⟨rfl, rfl, ?_⟩
  decide

/-- C5: refuted as stated — the generated `Content-Length` value is Python's
`len(body)`, the CHARACTER count, while the body is transmitted UTF-8
encoded: for the one-character body `"é"` the header reports 1 although the
body occupies 2 bytes on the wire, so re-parsing the header block does not
report the transmitted byte length. -/
theorem c5_counterexample :
    reported_content_length (create_response_lines "t1" req_x "200 OK" "é")
      = some (toString (String.length "é"))
    ∧ String.length "é" = 1
    ∧ String.utf8ByteSize "é" = 2
    ∧ reported_content_length (create_response_lines "t1" req_x "200 OK" "é")
      ≠ some (toString (String.utf8ByteSize "é")) := by
  refine ⟨by decide, by decide, by decide, by decide⟩

/-- C5 amended: for every generated response whose body consists only of
ASCII characters, the `Content-Length` header value equals the byte length
of the body as transmitted (`utf8ByteSize`): the generated header line is
exactly `Content-Length: <utf8ByteSize body>`, and re-parsing the generated
header block reports that same value.  (For non-ASCII bodies the header
instead reports the character count, see the counterexample.) -/
theorem c5_amended_content_length_ascii (did : String) (req : SIPRequest)
    (status body : String) (h : ∀ c ∈ body.data, c.toNat < 128) :
    (create_response_lines did req status body).get? 8
      = some ("Content-Length: " ++ toString body.utf8ByteSize)
    ∧ reported_content_length (create_response_lines did req status body)
      = some (toString body.utf8ByteSize) := by
  have hlen : body.utf8ByteSize = body.length := utf8ByteSize_eq_length_of_ascii body h
  constructor
  · show some ("Content-Length: " ++ toString body.length) = _
    rw [hlen]
  · show some (toString body.length) = some (toString body.utf8ByteSize)
    rw [hlen]

/-- Witness for the amended C5 at the concrete ASCII body `"v=0"`. -/
theorem c5_amended_witness :
    (∀ c ∈ ("v=0" : String).data, c.toNat < 128)
    ∧ ((create_response_lines "t1" req_x "200 OK" "v=0").get? 8
        = some ("Content-Length: " ++ toString ("v=0" : String).utf8ByteSize)
       ∧ reported_content_length (create_response_lines "t1" req_x "200 OK" "v=0")
        = some (toString ("v=0" : String).utf8ByteSize)) :=
  ⟨by decide, c5_amended_content_length_ascii "t1" req_x "200 OK" "v=0" (by decide)⟩

/-- C6: refuted as stated — the tag is generated once per CONNECTION (in
`__init__`), not once per dialog: two INVITEs with distinct Call-IDs
processed on the same connection create two dialogs whose responses carry
the identical tag `aB3dE5gH`, so the tag is neither generated at dialog
creation nor unique among currently-registered dialogs. -/
theorem c6_counterexample :
    let create := (some ⟨"v=0a"⟩ : Option Call)
    let st0 := ConnState.mk "aB3dE5gH" none
    let r1 := data_received (fun _ => true) create st0 "H\r\n\r\nv=0" (some req_x)
    let r2 := data_received (fun _ => true) create r1.state "H\r\n\r\nv=0" (some req_y)
    req_x.callID ≠ req_y.callID
    ∧ r1.state.did = "aB3dE5gH"
    ∧ r2.state.did = "aB3dE5gH"
    ∧ r1.writes.get? 1 = some (create_response "aB3dE5gH" req_x "200 OK" "v=0a")
    ∧ r2.writes.get? 1 = some (create_response "aB3dE5gH" req_y "200 OK" "v=0a")
    ∧ (create_response_lines "aB3dE5gH" req_x "200 OK" "v=0a").get? 2
        = some "To: <sip:ai@9.8.7.6>;tag=aB3dE5gH"
    ∧ (create_response_lines "aB3dE5gH" req_y "200 OK" "v=0a").get? 2
        = some "To: <sip:ai@9.8.7.6>;tag=aB3dE5gH" := by
  refine ⟨by decide, rfl, rfl, rfl, rfl, by decide, by decide⟩

/-- C6 amended: the local tag is an 8-character alphanumeric string
generated once per CONNECTION at connection setup (`__init__`); it is never
changed by request processing, and every response built on the connection
echoes exactly that tag appended to the To header.  (Uniqueness across
connections is only probabilistic — `secrets.choice` — and dialogs sharing a
connection share the tag, so no per-dialog uniqueness holds.) -/
theorem c6_amended_tag_per_connection (choice : Nat → Fin 62)
    (sdp_parse_ok : String → Bool) (call_create : Option Call) (st : ConnState)
    (data : String) (msg : Option SIPRequest) (req : SIPRequest)
    (status body : String) :
    (generate_unique_string choice 8).length = 8
    ∧ (generate_unique_string choice 8).data.all Char.isAlphanum = true
    ∧ (protocol_init choice).did = generate_unique_string choice 8
    ∧ (data_received sdp_parse_ok call_create st data msg).state.did = st.did
    ∧ (create_response_lines st.did req status body).get? 2
        = some ("To: " ++ req.toRaw ++ ";tag=" ++ st.did) := by
  refine ⟨?_, ?_, rfl, data_received_preserves_did _ _ _ _ _, rfl⟩
  · show ((List.range 8).map _).length = 8
    simp
  · rw [generate_unique_string_data]
    simp only [List.all_eq_true]
    intro i hi
    simp only [List.mem_map] at hi
    obtain ⟨j, hj, rfl⟩ := hi
    exact tagChars_all_alphanum _ (List.get_mem tagChars _ _)

/-- C7: refuted as stated — `create_response` appends `;tag=<connection
tag>` to the echoed To header UNCONDITIONALLY (source line 141): for a
request whose To header already carries a remote-supplied tag, the response
To line still gets the local tag appended after it. -/
theorem c7_counterexample :
    req_tagged.toRaw = "<sip:ai@9.8.7.6>;tag=remote1"
    ∧ (create_response_lines "dG5xYz12" req_tagged "200 OK" "").get? 2
        = some "To: <sip:ai@9.8.7.6>;tag=remote1;tag=dG5xYz12"
    ∧ (create_response_lines "dG5xYz12" req_tagged "200 OK" "").get? 2
        ≠ some ("To: " ++ req_tagged.toRaw) := by
  refine ⟨by decide, by decide, by decide⟩

/-- C7 amended: `create_response` always appends `;tag=<connection tag>` to
the echoed To header — whether or not the request's To already carries a
tag — while preserving the request's raw To text (any existing tag
included) verbatim as a prefix. -/
theorem c7_amended_unconditional_append (did : String) (req : SIPRequest)
    (status body : String) :
    (create_response_lines did req status body).get? 2
      = some ("To: " ++ req.toRaw ++ ";tag=" ++ did) := rfl

/-- C8: refuted as stated — `data.split(b"\r\n\r\n")` splits at EVERY
blank-line boundary, and the 2-tuple unpacking then raises `ValueError` on a
message whose body itself contains a further blank-line sequence, instead of
splitting at the first boundary with the remainder as body: processing such
an INVITE crashes after the `100 Trying` write. -/
theorem c8_second_blank_line_crashes :
    split_headers_body "INVITE sip:x SIP/2.0\r\nVia: a\r\n\r\nv=0\r\n\r\ns=x" = none
    ∧ (let r := data_received (fun _ => true) (some ⟨"a"⟩) ⟨"t1", none⟩
         "INVITE sip:x SIP/2.0\r\nVia: a\r\n\r\nv=0\r\n\r\ns=x" (some req_x)
       r.outcome = Outcome.uncaughtException "ValueError: unpacking data.split"
       ∧ r.writes = [create_response "t1" req_x "100 Trying" ""]) := by
  refine ⟨by decide, ?_, ?_⟩ <;> decide

/-- C9: refuted as stated — the Via line is rebuilt as
`type ++ " " ++ address-joined-with-":" ++ ":branch=" ++ branch`: the branch
parameter is attached with a COLON, not the SIP `;branch=` separator, so the
request's first Via is not reproduced verbatim. -/
theorem c9_via_branch_colon :
    (create_response_lines "d1" req_x "200 OK" "").get? 1
      = some "Via: SIP/2.0/TCP 1.2.3.4:5060:branch=z9hG4bK1"
    ∧ (create_response_lines "d1" req_x "200 OK" "").get? 1
      ≠ some "Via: SIP/2.0/TCP 1.2.3.4:5060;branch=z9hG4bK1" := by
  refine ⟨by decide, by decide⟩

/-- C10: processing any parsed request whose method is not INVITE (OPTIONS,
BYE, ACK, or an unrecognized method) leaves the connection state — the tag
`did` and the `currentCall` handle — exactly as it was; only the INVITE
branch ever assigns `currentCall`. -/
theorem c10_non_invite_preserves_state (sdp_parse_ok : String → Bool)
    (call_create : Option Call) (st : ConnState) (data : String)
    (req : SIPRequest) (h : req.method ≠ "INVITE") :
    (data_received sdp_parse_ok call_create st data (some req)).state = st := by
  simp only [data_received]
  rw [if_neg h]
  split_ifs <;> rfl

/-- Witness for C10 at a concrete OPTIONS request. -/
theorem c10_witness :
    req_opt.method ≠ "INVITE"
    ∧ (data_received (fun _ => true) none ⟨"t1", none⟩ "O" (some req_opt)).state
        = ⟨"t1", none⟩ :=
  ⟨by decide,
   c10_non_invite_preserves_state (fun _ => true) none ⟨"t1", none⟩ "O" req_opt (by decide)⟩

end Standalone
